import Mathlib

/-
Verification of the cinder storage-backend driver
(src/glance_store/_drivers/cinder.py).

Python strings are modelled as lists of characters (`Str`), exceptions as the
inductive `PyExc`, and each method of the driver as an executable Lean
function returning `Except PyExc _` together with the list of log records it
emits.  The remote volume service (cinderclient) is external to the
repository; the outcome of the single remote call `volumes.get` is therefore
an oracle parameter (`RemoteResult`) of `get_size`.
-/

namespace CinderStore

/-- Python `str`, modelled as its sequence of characters. -/
abbrev Str := List Char

/-- Coercion from a Lean string literal into the model type. -/
def str (s : String) : Str := s.data

/-- Exception values raised by the modelled code.  `badStoreUri`,
`badStoreConfiguration` and `notFound` are the glance_store exception
classes used by the driver; `cinderNotFound` is `cinder_exception.NotFound`;
`endpointNotFound` is `ks_exceptions.EndpointNotFound`; `attributeError`,
`keyError` and `valueError` are the Python builtins; `otherError` stands for
an arbitrary further exception raised by the remote call. -/
inductive PyExc where
  | badStoreUri (message : Str)
  | badStoreConfiguration (store_name reason : Str)
  | notFound (message : Str)
  | cinderNotFound (message : Str)
  | endpointNotFound
  | attributeError (message : Str)
  | keyError (key : Str)
  | valueError (message : Str)
  | otherError (message : Str)
  deriving DecidableEq

/-- A record emitted on the logging side channel.  `LOG.info` and `LOG.error`
carry a message; `LOG.exception` (used by the catch-all handler of
`get_size`) records the caught exception itself. -/
inductive LogEntry where
  | info (message : Str)
  | error (message : Str)
  | exceptionLog (e : PyExc)
  deriving DecidableEq

/-- `glance_store.location.StoreLocation` state after `process_specs` or
`parse_uri`: the cinder `StoreLocation` stores a scheme and a volume id.
`volume_id` is an `Option` because `process_specs` uses
`self.specs.get('volume_id')`, whose result may be Python `None`. -/
structure StoreLocation where
  scheme : Str
  volume_id : Option Str
  deriving DecidableEq

/-- The `specs` mapping passed to `process_specs`, restricted to the two keys
the source reads: `specs.get('scheme', 'cinder')` and
`specs.get('volume_id')`. -/
structure Specs where
  scheme : Option Str
  volume_id : Option Str
  deriving DecidableEq

/-- `StoreLocation.process_specs` of the source: the scheme defaults to
`cinder`, the volume id is taken as-is (possibly `None`); no validation. -/
def process_specs (specs : Specs) : StoreLocation :=
  { scheme := specs.scheme.getD (str "cinder")
    volume_id := specs.volume_id }

/-- Python `"%s" % x` rendering of an optional string: `None` prints as
`"None"`. -/
def pyStrOfOpt : Option Str → Str
  | some s => s
  | none => str "None"

/-- The literal URI head `"cinder://"` used by `get_uri` and `parse_uri`. -/
def schemeHead : Str := str "cinder://"

/-- `StoreLocation.get_uri` of the source: `"cinder://%s" % self.volume_id`.
Only `volume_id` is read; the `scheme` field is not consulted. -/
def StoreLocation.get_uri (loc : StoreLocation) : Str :=
  schemeHead ++ pyStrOfOpt loc.volume_id

/-- Hexadecimal digit test (0-9, a-f, A-F), by code point. -/
def isHexDigit (c : Char) : Bool :=
  (48 ≤ c.toNat && c.toNat ≤ 57) ||
  (97 ≤ c.toNat && c.toNat ≤ 102) ||
  (65 ≤ c.toNat && c.toNat ≤ 70)

/-- Split a character list on a separator character; mirrors Python
`str.split(sep)` for a one-character separator (empty input yields one empty
field, n separators yield n+1 fields). -/
def splitOnChar (sep : Char) : Str → List Str
  | [] => [[]]
  | c :: rest =>
    if c == sep then [] :: splitOnChar sep rest
    else
      match splitOnChar sep rest with
      | [] => [[c]]
      | g :: gs => (c :: g) :: gs

/-- A group of exactly `n` hexadecimal characters. -/
def isHexGroup (g : Str) (n : Nat) : Bool :=
  (g.length == n) && g.all isHexDigit

/-- Modelled from the spec: `utils.is_uuid_like` is imported from
`glance_store.common.utils`, which is not under src/.  Spec section 4.1:
the volume id "must match a UUID-like pattern (hexadecimal groups separated
by hyphens, the standard 8-4-4-4-12 shape, case-insensitive)". -/
def is_uuid_like (s : Str) : Bool :=
  match splitOnChar '-' s with
  | [a, b, c, d, e] =>
    isHexGroup a 8 && isHexGroup b 4 && isHexGroup c 4 &&
    isHexGroup d 4 && isHexGroup e 12
  | _ => false

/-- Message of the first `parse_uri` failure (source line 68). -/
def badSchemeMsg : Str := str "URI must start with 'cinder://'"

/-- Message of the second `parse_uri` failure (source line 77). -/
def badVolumeMsg : Str := str "URI contains invalid volume ID"

/-- `StoreLocation.parse_uri`, parameterised by the volume-id validator so
that independence from the validator can be stated.  Source: reject unless
the URI starts with `cinder://` (logging the reason at info level), take the
remainder `uri[9:]` verbatim as the volume id, reject (again logging at info
level) unless it is UUID-like. -/
def parse_uri_with (chk : Str → Bool) (uri : Str) :
    Except PyExc StoreLocation × List LogEntry :=
  if schemeHead.isPrefixOf uri then
    let volume_id := uri.drop 9
    if chk volume_id then
      (.ok { scheme := str "cinder", volume_id := some volume_id }, [])
    else
      (.error (.badStoreUri badVolumeMsg), [.info badVolumeMsg])
  else
    (.error (.badStoreUri badSchemeMsg), [.info badSchemeMsg])

/-- `StoreLocation.parse_uri` of the source, using the UUID validator. -/
def parse_uri (uri : Str) : Except PyExc StoreLocation × List LogEntry :=
  parse_uri_with is_uuid_like uri

/-- The configuration options registered by `_CINDER_OPTS` and read by the
driver.  Optional string options default to Python `None`;
`cinder_http_retries` defaults to 3. -/
structure Conf where
  cinder_catalog_info : Str
  cinder_endpoint_template : Option Str
  os_region_name : Option Str
  cinder_http_retries : Nat
  deriving DecidableEq

/-- The registered defaults: `volume:cinder:publicURL`, no endpoint template,
no region, 3 retries. -/
def defaultConf : Conf :=
  { cinder_catalog_info := str "volume:cinder:publicURL"
    cinder_endpoint_template := none
    os_region_name := none
    cinder_http_retries := 3 }

/-- Opaque stand-in for the keystoneclient session loaded from
configuration (external collaborator). -/
structure Session where
  token : Nat
  deriving DecidableEq

/-- Opaque stand-in for the authentication plugin carried by a request
context (external collaborator). -/
structure AuthPlugin where
  token : Nat
  deriving DecidableEq

/-- The request-context capability the driver consumes: `to_dict()` (a
mapping used for endpoint-template interpolation) and `get_auth_plugin()`. -/
structure Context where
  to_dict : List (Str × Str)
  auth_plugin : AuthPlugin
  deriving DecidableEq

/-- The `get_auth_plugin` capability of the context. -/
def Context.get_auth_plugin (ctx : Context) : AuthPlugin :=
  ctx.auth_plugin

/-- The cinderclient `Client` value as the source constructs it: the
constructor call at source lines 120-124 passes exactly the keyword
arguments `session`, `auth`, `region_name` and `retries` and nothing else
(in particular no endpoint and no service-catalog fields). -/
structure CinderClient where
  session : Session
  auth : AuthPlugin
  region_name : Option Str
  retries : Nat
  deriving DecidableEq

/-- Association-list lookup modelling Python dict access `d[k]`. -/
def strLookup : List (Str × Str) → Str → Option Str
  | [], _ => none
  | p :: rest, k => if p.fst == k then some p.snd else strLookup rest k

/-- Python mapping interpolation `template % d` restricted to the
`%(name)s` conversions the spec names (plus `%%`); a missing key raises
`KeyError`, any other conversion raises `ValueError`.  Fuel-based recursion;
the caller supplies fuel at least the length of the template, which is
sufficient because every step consumes at least one character. -/
def pyFormatFuel (d : List (Str × Str)) : Nat → Str → Except PyExc Str
  | _, [] => .ok []
  | 0, _ => .error (.valueError (str "format fuel exhausted"))
  | fuel + 1, '%' :: '(' :: rest =>
    let key := rest.takeWhile (fun c => !(c == ')'))
    match rest.drop key.length with
    | ')' :: 's' :: rest2 =>
      match strLookup d key with
      | some v => (pyFormatFuel d fuel rest2).map (fun t => v ++ t)
      | none => .error (.keyError key)
    | _ => .error (.valueError (str "unsupported format character"))
  | fuel + 1, '%' :: '%' :: rest =>
    (pyFormatFuel d fuel rest).map (fun t => '%' :: t)
  | _ + 1, '%' :: _ => .error (.valueError (str "unsupported format character"))
  | fuel + 1, c :: rest => (pyFormatFuel d fuel rest).map (fun t => c :: t)

/-- Python `template % d` with sufficient fuel. -/
def pyFormatMap (d : List (Str × Str)) (s : Str) : Except PyExc Str :=
  pyFormatFuel d s.length s

/-- The adapter state established by `Store.__init__`: the loaded session,
the three fields unpacked from `cinder_catalog_info`, and the configuration.

Modelled from the spec: the base class `glance_store.driver.Store` is not
under src/; spec section 3 lists the adapter attributes as exactly
{session, serviceType, serviceName, endpointType, endpointTemplate,
regionName, httpRetries} (the last three via `conf`).  In particular the
adapter has no `volume_id` attribute, so an access to `self.volume_id`
raises `AttributeError`. -/
structure Store where
  conf : Conf
  session : Session
  service_type : Str
  service_name : Str
  endpoint_type : Str
  deriving DecidableEq

/-- Message of the Python `ValueError` raised when unpacking a sequence of
length `n` into exactly 3 targets fails. -/
def unpackMsg (n : Nat) : Str :=
  if n < 3 then str "not enough values to unpack (expected 3)"
  else str "too many values to unpack (expected 3)"

/-- `Store.__init__`: the session load is delegated to the session provider
(passed in as `sess`); then `cinder_catalog_info` is split on `:` and the
result unpacked into the three catalog fields.  Unpacking a list whose
length is not 3 raises `ValueError` with the message given by
`unpackMsg`. -/
def Store.init (conf : Conf) (sess : Session) : Except PyExc Store :=
  match splitOnChar ':' conf.cinder_catalog_info with
  | [a, b, c] =>
    .ok { conf := conf, session := sess, service_type := a,
          service_name := b, endpoint_type := c }
  | parts => .error (.valueError (unpackMsg parts.length))

/-- `Store._check_context`: a null (None) context raises
`BadStoreConfiguration(store_name="cinder", reason="Cinder storage requires
a context.")`.  For convenience the model returns the non-null context. -/
def check_context : Option Context → Except PyExc Context
  | none =>
    .error (.badStoreConfiguration (str "cinder")
      (str "Cinder storage requires a context."))
  | some ctx => .ok ctx

/-- `Store._get_cinderclient`: read `cinder_endpoint_template`; if it is
truthy (non-None, non-empty), interpolate it against `context.to_dict()` —
the source binds the result to a local that is never used again — then
construct the client from {session, auth plugin, region name, retry count}
only. -/
def Store.get_cinderclient (store : Store) (context : Context) :
    Except PyExc CinderClient :=
  let built : CinderClient :=
    { session := store.session
      auth := context.get_auth_plugin
      region_name := store.conf.os_region_name
      retries := store.conf.cinder_http_retries }
  match store.conf.cinder_endpoint_template with
  | some t =>
    if t.isEmpty then .ok built
    else
      match pyFormatMap context.to_dict t with
      | .ok _endpoint_override => .ok built
      | .error e => .error e
  | none => .ok built

/-- Oracle for the one remote interaction of `get_size`: the outcome of
`client.volumes.get(loc.volume_id)`.  `size` is a successful fetch whose
volume reports the given size in gigabytes; the other constructors are the
exceptions the remote call can raise. -/
inductive RemoteResult where
  | size (gb : Nat)
  | notFound (message : Str)
  | endpointNotFound
  | otherFailure (message : Str)
  deriving DecidableEq

/-- The remote call `volumes.get` as an `Except`, driven by the oracle. -/
def volumes_get : RemoteResult → Except PyExc Nat
  | .size gb => .ok gb
  | .notFound message => .error (.cinderNotFound message)
  | .endpointNotFound => .error .endpointNotFound
  | .otherFailure message => .error (.otherError message)

/-- The `try` block of `get_size`: check the context, build the client,
fetch the volume, convert the reported size from gigabytes to bytes. -/
def get_size_body (store : Store) (context : Option Context)
    (remote : RemoteResult) : Except PyExc Nat :=
  match check_context context with
  | .error e => .error e
  | .ok ctx =>
    match store.get_cinderclient ctx with
    | .error e => .error e
    | .ok _client =>
      match volumes_get remote with
      | .error e => .error e
      | .ok volume_size => .ok (volume_size * 1024 ^ 3)

/-- Python message of the `AttributeError` raised when the not-found handler
of `get_size` reads the nonexistent attribute `self.volume_id`. -/
def noVolumeIdAttrMsg : Str :=
  str "Store object has no attribute volume_id"

/-- The `except` clauses of `get_size`, applied to an exception raised by
the `try` block.  `cinder_exception.NotFound`: the handler first computes
`"... volume can not be found: %s" % self.volume_id`, but the adapter has no
`volume_id` attribute, so the handler itself raises `AttributeError` before
reaching `LOG.error`; an exception raised inside an `except` clause is not
caught by the remaining clauses of the same `try` statement, so it escapes.
`ks_exceptions.EndpointNotFound`: re-raised as `BadStoreConfiguration`.
Anything else: `LOG.exception` records it and the call returns 0. -/
def get_size_handler (e : PyExc) : Except PyExc Nat × List LogEntry :=
  match e with
  | .cinderNotFound _ => (.error (.attributeError noVolumeIdAttrMsg), [])
  | .endpointNotFound =>
    (.error (.badStoreConfiguration (str "cinder")
      (str "Cinder endpoint could not be determined")), [])
  | e => (.ok 0, [.exceptionLog e])

/-- `Store.get_size`: run the `try` block; a normal value passes through
with no log, an exception goes to the handler chain.  `location` enters only
through the volume id passed to the remote call, which the oracle subsumes,
so the result does not otherwise depend on it; the parameter is kept to
mirror the signature. -/
def get_size (store : Store) (_location : StoreLocation)
    (context : Option Context) (remote : RemoteResult) :
    Except PyExc Nat × List LogEntry :=
  match get_size_body store context remote with
  | .ok n => (.ok n, [])
  | .error e => get_size_handler e

/-- Sample session for concrete instantiations. -/
def sess0 : Session := { token := 1 }

/-- Sample auth plugin. -/
def auth0 : AuthPlugin := { token := 2 }

/-- Sample context whose dict carries a project id. -/
def ctx0 : Context :=
  { to_dict := [(str "project_id", str "tenant1")], auth_plugin := auth0 }

/-- Adapter built from the default configuration. -/
def store0 : Store :=
  { conf := defaultConf, session := sess0, service_type := str "volume",
    service_name := str "cinder", endpoint_type := str "publicURL" }

/-- The location of the spec's concrete scenario. -/
def loc0 : StoreLocation :=
  { scheme := str "cinder",
    volume_id := some (str "2aa1d1c2-5f0c-4e8f-8e0d-111111111111") }

/-- A second concrete location. -/
def loc1 : StoreLocation :=
  { scheme := str "cinder",
    volume_id := some (str "7447a1c2-5f0c-4e8f-8e0d-222222222222") }

/-- The client that `store0.get_cinderclient ctx0` constructs. -/
def client0 : CinderClient :=
  { session := sess0, auth := auth0, region_name := none, retries := 3 }

/-- Configuration with an endpoint template set (the example template of the
option's help text). -/
def confTmpl : Conf :=
  { defaultConf with
    cinder_endpoint_template := some (str "http://localhost:8776/v1/%(project_id)s") }

/-- Adapter configured with the endpoint template. -/
def storeTmpl : Store := { store0 with conf := confTmpl }

/-- Adapter whose catalog service type differs from `store0`. -/
def storeSvc : Store := { store0 with service_type := str "block-storage" }

/-- Configuration whose catalog info has too few fields. -/
def confBadCat : Conf :=
  { defaultConf with cinder_catalog_info := str "volume:cinder" }

/-- Configuration whose catalog info has too many fields. -/
def confBadCat2 : Conf :=
  { defaultConf with cinder_catalog_info := str "a:b:c:d" }

/-- Does a `get_size` outcome consist of raising `BadStoreConfiguration`? -/
def raisesBadStoreConfig : Except PyExc Nat → Bool
  | .error (.badStoreConfiguration _ _) => true
  | _ => false

/-- Does a `get_size` outcome consist of raising an exception that is
neither of the two classified kinds (`NotFound`,
`BadStoreConfiguration`)? -/
def escapesUnclassified : Except PyExc Nat → Bool
  | .error (.notFound _) => false
  | .error (.badStoreConfiguration _ _) => false
  | .error _ => true
  | .ok _ => false

/-- Does adapter construction fail with `BadStoreConfiguration`? -/
def initRaisesBadStoreConfig (conf : Conf) (sess : Session) : Bool :=
  match Store.init conf sess with
  | .error (.badStoreConfiguration _ _) => true
  | _ => false

/-- Does a `get_size` outcome consist of raising the caller-facing
`NotFound` exception? -/
def raisesNotFound : Except PyExc Nat → Bool
  | .error (.notFound _) => true
  | _ => false

/-- A list is a prefix of itself followed by anything. -/
theorem isPrefixOf_append_self (l t : Str) : l.isPrefixOf (l ++ t) = true := by
  induction l with
  | nil => simp
  | cons c cs ih => simp [List.isPrefixOf_cons₂, ih]

/-- Dropping the length of the first summand of an append returns the
second summand. -/
theorem dropLen_append (l t : Str) : (l ++ t).drop l.length = t := by
  induction l with
  | nil => rfl
  | cons c cs ih => simp [ih]

/-- Dropping 9 characters from `schemeHead ++ v` returns `v`. -/
theorem schemeHead_append_drop (v : Str) : (schemeHead ++ v).drop 9 = v :=
  dropLen_append schemeHead v

/-- C1 (amended): for every adapter, location and remote outcome, calling
`get_size` with a null context makes `_check_context` raise
`BadStoreConfiguration` (reason "Cinder storage requires a context.")
before any network interaction — the result does not depend on the remote
outcome — but the catch-all `except Exception` clause of `get_size` then
swallows that exception: `get_size` returns 0 and records the exception on
the logging side channel instead of raising it to the caller. -/
theorem get_size_null_context_returns_zero (store : Store)
    (loc : StoreLocation) (remote : RemoteResult) :
    check_context none = .error (.badStoreConfiguration (str "cinder")
      (str "Cinder storage requires a context.")) ∧
    get_size store loc none remote =
      (.ok 0, [.exceptionLog (.badStoreConfiguration (str "cinder")
        (str "Cinder storage requires a context."))]) :=
  ⟨rfl, rfl⟩

/-- C1 counterexample: at a concrete adapter, location and remote outcome, a
null context makes `get_size` return 0; no `BadStoreConfiguration` is
raised to the caller, contradicting the claim that the error is raised
rather than converted into a return value. -/
theorem get_size_null_context_no_raise :
    (get_size store0 loc0 none (.size 5)).fst = .ok 0 ∧
    raisesBadStoreConfig (get_size store0 loc0 none (.size 5)).fst = false :=
  ⟨rfl, rfl⟩

/-- C2 (code bug): when the remote service affirmatively reports the volume
as not existing, `get_size` does not raise the caller-facing `NotFound`;
its handler reads the nonexistent attribute `self.volume_id` and so raises
`AttributeError` instead (and no size value is returned, but neither is any
volume-identifying message). -/
theorem get_size_not_found_attribute_error :
    get_size store0 loc0 (some ctx0) (.notFound (str "volume not found")) =
      (.error (.attributeError noVolumeIdAttrMsg), []) ∧
    raisesNotFound (get_size store0 loc0 (some ctx0)
      (.notFound (str "volume not found"))).fst = false :=
  ⟨rfl, rfl⟩

/-- C3 (code bug): an exception that is neither `NotFound` nor
`BadStoreConfiguration` crosses out of `get_size`: on the volume-not-found
path the handler raises `AttributeError`, which escapes because an
exception raised inside an `except` clause is not caught by the remaining
clauses of the same `try` statement. -/
theorem get_size_escape_unclassified :
    (get_size store0 loc1 (some ctx0) (.notFound (str "no such volume"))).fst =
      .error (.attributeError noVolumeIdAttrMsg) ∧
    escapesUnclassified (get_size store0 loc1 (some ctx0)
      (.notFound (str "no such volume"))).fst = true :=
  ⟨rfl, rfl⟩

/-- C4: whenever the per-request client was built, a remote failure that is
neither volume-not-found nor endpoint-resolution makes `get_size` return 0
(not an error) while the failure is recorded on the logging side channel;
an endpoint-resolution failure instead raises `BadStoreConfiguration`. -/
theorem get_size_degrade_and_endpoint (store : Store) (loc : StoreLocation)
    (ctx : Context) (client : CinderClient) (msg : Str)
    (h : store.get_cinderclient ctx = .ok client) :
    get_size store loc (some ctx) (.otherFailure msg) =
      (.ok 0, [.exceptionLog (.otherError msg)]) ∧
    get_size store loc (some ctx) .endpointNotFound =
      (.error (.badStoreConfiguration (str "cinder")
        (str "Cinder endpoint could not be determined")), []) := by
  constructor <;>
    simp [get_size, get_size_body, check_context, h, volumes_get,
      get_size_handler]

/-- Witness for C4 at a concrete adapter, context and failure. -/
theorem get_size_degrade_and_endpoint_witness :
    get_size store0 loc0 (some ctx0) (.otherFailure (str "connection reset")) =
      (.ok 0, [.exceptionLog (.otherError (str "connection reset"))]) ∧
    get_size store0 loc0 (some ctx0) .endpointNotFound =
      (.error (.badStoreConfiguration (str "cinder")
        (str "Cinder endpoint could not be determined")), []) :=
  get_size_degrade_and_endpoint store0 loc0 ctx0 client0
    (str "connection reset") rfl

/-- C5 (code bug): with an endpoint template configured, the interpolation
succeeds (conjunct 3 computes the explicit endpoint), yet the constructed
client is identical to the one built with no template at all (conjunct 1):
the interpolated endpoint is discarded.  The client is likewise identical
under a different catalog service type (conjunct 2), and consists of
exactly {session, auth plugin, region name, retries} (conjunct 4): neither
the explicit endpoint nor {service type, service name, endpoint type} reach
the client. -/
theorem get_cinderclient_discards_endpoint_and_catalog :
    storeTmpl.get_cinderclient ctx0 = store0.get_cinderclient ctx0 ∧
    storeSvc.get_cinderclient ctx0 = store0.get_cinderclient ctx0 ∧
    pyFormatMap ctx0.to_dict (str "http://localhost:8776/v1/%(project_id)s") =
      .ok (str "http://localhost:8776/v1/tenant1") ∧
    store0.get_cinderclient ctx0 = .ok client0 :=
  ⟨rfl, rfl, rfl, rfl⟩

/-- C6: the three cases of `parse_uri` partition all input strings.  A
string without the `cinder://` head fails with the "URI must start with
'cinder://'" message under any volume-id validator whatsoever (so UUID
validation is never attempted); a string with the head whose remainder
`uri[9:]` is not UUID-like fails with the "URI contains invalid volume ID"
message; otherwise parsing succeeds with scheme `cinder` and the remainder,
taken verbatim, as the volume id.  The two messages are distinct, so each
failure occurs exactly in its case, and each failure is logged at info
level. -/
theorem parse_uri_exact_cases (s : Str) (chk : Str → Bool) :
    (schemeHead.isPrefixOf s = false →
      parse_uri_with chk s =
        (.error (.badStoreUri badSchemeMsg), [.info badSchemeMsg])) ∧
    (schemeHead.isPrefixOf s = true → is_uuid_like (s.drop 9) = false →
      parse_uri s =
        (.error (.badStoreUri badVolumeMsg), [.info badVolumeMsg])) ∧
    (schemeHead.isPrefixOf s = true → is_uuid_like (s.drop 9) = true →
      parse_uri s =
        (.ok { scheme := str "cinder", volume_id := some (s.drop 9) }, [])) := by
  refine ⟨fun h1 => ?_, fun h1 h2 => ?_, fun h1 h2 => ?_⟩
  · simp [parse_uri_with, h1]
  · simp [parse_uri, parse_uri_with, h1, h2]
  · simp [parse_uri, parse_uri_with, h1, h2]

/-- Witness for C6, one concrete input per case (with a validator that
accepts everything in the first case, showing the validator is not
consulted). -/
theorem parse_uri_exact_cases_witness :
    parse_uri_with (fun _ => true) (str "swift://abc") =
      (.error (.badStoreUri badSchemeMsg), [.info badSchemeMsg]) ∧
    parse_uri (str "cinder://not-a-uuid") =
      (.error (.badStoreUri badVolumeMsg), [.info badVolumeMsg]) ∧
    parse_uri (str "cinder://0a0b0c0d-1111-2222-3333-444455556666") =
      (.ok { scheme := str "cinder",
             volume_id := some (str "0a0b0c0d-1111-2222-3333-444455556666") },
       []) :=
  ⟨(parse_uri_exact_cases (str "swift://abc") (fun _ => true)).1 rfl,
   (parse_uri_exact_cases (str "cinder://not-a-uuid") is_uuid_like).2.1 rfl rfl,
   (parse_uri_exact_cases (str "cinder://0a0b0c0d-1111-2222-3333-444455556666")
      is_uuid_like).2.2 rfl rfl⟩

/-- C7: round-trip law — every Location produced by a successful parse
re-parses from its rendering to a field-for-field equal Location — together
with the spec's concrete scenario: parsing
`cinder://2aa1d1c2-5f0c-4e8f-8e0d-111111111111` yields scheme `cinder` and
that volume id, and rendering that Location returns the original string
exactly. -/
theorem parse_render_roundtrip :
    (∀ uri L logs, parse_uri uri = (.ok L, logs) →
      parse_uri L.get_uri = (.ok L, [])) ∧
    parse_uri (str "cinder://2aa1d1c2-5f0c-4e8f-8e0d-111111111111") =
      (.ok loc0, []) ∧
    StoreLocation.get_uri loc0 =
      str "cinder://2aa1d1c2-5f0c-4e8f-8e0d-111111111111" := by
  refine ⟨?_, rfl, rfl⟩
  intro uri L logs h
  cases hp : schemeHead.isPrefixOf uri with
  | false =>
    have he : parse_uri uri =
        (.error (.badStoreUri badSchemeMsg), [.info badSchemeMsg]) := by
      simp [parse_uri, parse_uri_with, hp]
    rw [he] at h
    injection h with h1 h2
    injection h1
  | true =>
    cases hu : is_uuid_like (uri.drop 9) with
    | false =>
      have he : parse_uri uri =
          (.error (.badStoreUri badVolumeMsg), [.info badVolumeMsg]) := by
        simp [parse_uri, parse_uri_with, hp, hu]
      rw [he] at h
      injection h with h1 h2
      injection h1
    | true =>
      have hres : parse_uri uri =
          (.ok { scheme := str "cinder", volume_id := some (uri.drop 9) },
           []) := by
        simp [parse_uri, parse_uri_with, hp, hu]
      rw [hres] at h
      injection h with h1 h2
      injection h1 with h3
      subst h3
      show parse_uri (schemeHead ++ (uri.drop 9)) = _
      simp [parse_uri, parse_uri_with, isPrefixOf_append_self,
        schemeHead_append_drop, hu]

/-- Witness for C7: the concrete Location of the spec round-trips. -/
theorem parse_render_roundtrip_witness :
    parse_uri (StoreLocation.get_uri loc0) = (.ok loc0, []) :=
  parse_render_roundtrip.1
    (str "cinder://2aa1d1c2-5f0c-4e8f-8e0d-111111111111") loc0 [] rfl

/-- C8: whenever the per-request client was built and the metadata fetch
succeeds reporting size `n` (gigabytes), `get_size` returns exactly
`n * 1024 ^ 3` bytes with no log record. -/
theorem get_size_gb_to_bytes (store : Store) (loc : StoreLocation)
    (ctx : Context) (client : CinderClient) (n : Nat)
    (h : store.get_cinderclient ctx = .ok client) :
    get_size store loc (some ctx) (.size n) = (.ok (n * 1024 ^ 3), []) := by
  simp [get_size, get_size_body, check_context, h, volumes_get]

/-- Witness for C8: a reported size of 5 yields 5368709120 bytes. -/
theorem get_size_gb_to_bytes_witness :
    get_size store0 loc0 (some ctx0) (.size 5) = (.ok 5368709120, []) :=
  get_size_gb_to_bytes store0 loc0 ctx0 client0 5 rfl

/-- C9 counterexample: a catalog-info string with a single colon makes
construction fail with `ValueError` (from tuple unpacking), not with
`BadStoreConfiguration` as the claim states. -/
theorem store_init_bad_catalog_not_config_error :
    Store.init confBadCat sess0 =
      .error (.valueError (str "not enough values to unpack (expected 3)")) ∧
    initRaisesBadStoreConfig confBadCat sess0 = false :=
  ⟨rfl, rfl⟩

/-- C9 (amended): when the catalog-info string splits on `:` into exactly
three fields, construction succeeds and assigns them to service type,
service name and endpoint type in that order; with any other field count,
construction fails — but with the `ValueError` of the failed unpacking, not
with `BadStoreConfiguration`. -/
theorem store_init_catalog_split (conf : Conf) (sess : Session) :
    (∀ a b c, splitOnChar ':' conf.cinder_catalog_info = [a, b, c] →
      Store.init conf sess = .ok ⟨conf, sess, a, b, c⟩) ∧
    ((splitOnChar ':' conf.cinder_catalog_info).length ≠ 3 →
      Store.init conf sess = .error (.valueError
        (unpackMsg (splitOnChar ':' conf.cinder_catalog_info).length))) := by
  constructor
  · intro a b c h
    simp [Store.init, h]
  · intro h
    unfold Store.init
    rcases hl : splitOnChar ':' conf.cinder_catalog_info with
      _ | ⟨a, _ | ⟨b, _ | ⟨c, _ | ⟨d, tl⟩⟩⟩⟩
    · rfl
    · rfl
    · rfl
    · rw [hl] at h
      simp at h
    · rfl

/-- Witness for C9: the default catalog info constructs the adapter with
the three fields in order; a four-field catalog info fails with the
too-many-values `ValueError`. -/
theorem store_init_catalog_split_witness :
    Store.init defaultConf sess0 = .ok store0 ∧
    Store.init confBadCat2 sess0 =
      .error (.valueError (str "too many values to unpack (expected 3)")) :=
  ⟨(store_init_catalog_split defaultConf sess0).1 (str "volume")
      (str "cinder") (str "publicURL") rfl,
   (store_init_catalog_split confBadCat2 sess0).2 (by decide)⟩

/-- C10: `get_uri` depends only on the stored volume id and always emits
the fixed `cinder://` head: it ignores the scheme field entirely (changing
the scheme in the spec mapping leaves the rendering unchanged), and a spec
mapping with a missing volume id is accepted by `process_specs` without
error and renders as `cinder://None` (the Python string form of the stored
`None`). -/
theorem get_uri_ignores_scheme (loc : StoreLocation) (specs : Specs)
    (s1 s2 : Option Str) :
    loc.get_uri = schemeHead ++ pyStrOfOpt loc.volume_id ∧
    (process_specs { specs with scheme := s1 }).get_uri =
      (process_specs { specs with scheme := s2 }).get_uri ∧
    (process_specs { scheme := some (str "swift"), volume_id := none }).get_uri =
      str "cinder://None" :=
  ⟨rfl, rfl, rfl⟩

end CinderStore
